import Mathlib

/-!
Verification development for the QRCodeAttendance backend.

The definitions below are a shallow embedding of the route handlers in
`Server.js` (the authenticated backend variant): the MySQL tables become
lists of records, each route handler becomes a state-passing function on
the database, and SQL `WHERE` clauses become decidable predicates.
Identifiers (PRNs, course IDs, room numbers, teacher emails, UUIDs) are
abstracted to `Nat`; instants are `Int` (seconds); times of day are `Nat`
(seconds since midnight, totally ordered like MySQL `TIME` values).
-/

namespace QRAttend

/-- The seven values accepted by the `validDays` check of `POST /api/timetables`. -/
inductive Day where
  | monday | tuesday | wednesday | thursday | friday | saturday | sunday
deriving DecidableEq, Repr

/-- A row of the `timetable` table:
`(Timetable_ID, Course_ID, Div_ID, Teacher_Email, Day_Of_Week, Start_Time, End_Time, Room_Number)`. -/
structure TimetableEntry where
  timetableId : Nat
  courseId : Nat
  divId : Nat
  teacherEmail : Nat
  dayOfWeek : Day
  startTime : Nat
  endTime : Nat
  roomNumber : Nat
deriving DecidableEq, Repr

/-- A row of the `QR_code` table:
`(QR_ID, Generated_Time, Course_ID, Teacher_Email)`. -/
structure QRCode where
  qrId : Nat
  generatedTime : Int
  courseId : Nat
  teacherEmail : Nat
deriving DecidableEq, Repr

/-- A row of the `attendance` table:
`(Attendance_ID, Date, PRN, Course_ID, QR_ID, Status)`. -/
structure AttendanceRecord where
  attendanceId : Nat
  date : Int
  prn : Nat
  courseId : Nat
  qrId : Nat
  status : Bool
deriving DecidableEq, Repr

/-- The persistent state touched by the routes under verification:
the `teacher_course` and `student_course` join tables and the
`timetable`, `QR_code` and `attendance` tables. -/
structure DB where
  teacherCourse : List (Nat × Nat)
  studentCourse : List (Nat × Nat)
  timetable : List TimetableEntry
  qrCodes : List QRCode
  attendance : List AttendanceRecord
deriving DecidableEq, Repr

/-- The QR validity window used throughout the source: 15 minutes, in seconds. -/
def validityWindow : Int := 15 * 60

/-- The SQL overlap condition `NOT (newEnd <= Start_Time OR newStart >= End_Time)`
used by both conflict checks of `POST /api/timetables`, given the proposed
interval `[s1, e1)` and a stored interval `[s2, e2)`. -/
def timeOverlap (s1 e1 s2 e2 : Nat) : Prop :=
  ¬ (e1 ≤ s2 ∨ e2 ≤ s1)

instance (s1 e1 s2 e2 : Nat) : Decidable (timeOverlap s1 e1 s2 e2) := by
  unfold timeOverlap; infer_instance

/-- The room-conflict query of `POST /api/timetables`:
`SELECT ... FROM timetable WHERE Room_Number = ? AND Day_Of_Week = ? AND
NOT (? <= Start_Time OR ? >= End_Time)` with parameters (room, day, newEnd, newStart). -/
def roomConflict (db : DB) (room : Nat) (day : Day) (s e : Nat) : Prop :=
  ∃ t ∈ db.timetable, t.roomNumber = room ∧ t.dayOfWeek = day ∧
    timeOverlap s e t.startTime t.endTime

instance (db : DB) (room : Nat) (day : Day) (s e : Nat) :
    Decidable (roomConflict db room day s e) := by
  unfold roomConflict; infer_instance

/-- The teacher-conflict query of `POST /api/timetables`:
`SELECT ... FROM timetable WHERE Teacher_Email = ? AND Day_Of_Week = ? AND
NOT (? <= Start_Time OR ? >= End_Time)`. -/
def teacherConflict (db : DB) (teacherEmail : Nat) (day : Day) (s e : Nat) : Prop :=
  ∃ t ∈ db.timetable, t.teacherEmail = teacherEmail ∧ t.dayOfWeek = day ∧
    timeOverlap s e t.startTime t.endTime

instance (db : DB) (te : Nat) (day : Day) (s e : Nat) :
    Decidable (teacherConflict db te day s e) := by
  unfold teacherConflict; infer_instance

/-- Outcome of `POST /api/timetables`. `validationError` is the 400 on
`End_Time <= Start_Time`; `notAssigned` is the 403 when the teacher is not in
`teacher_course`; `roomBooked` and `instructorBooked` are the two 409 conflict
rejections, in the order the source checks them; `created id` is the 201. -/
inductive ProposeResult where
  | validationError
  | notAssigned
  | roomBooked
  | instructorBooked
  | created (timetableId : Nat)
deriving DecidableEq, Repr

/-- `POST /api/timetables` (ProposeSlot). The handler validates
`End_Time <= Start_Time`, checks the `teacher_course` assignment, runs the room
conflict query then the teacher conflict query, and only then inserts the row
with a fresh `Timetable_ID` (`newId` stands for the generated UUID). -/
def createTimetable (db : DB) (teacherEmail courseId divId : Nat) (day : Day)
    (startTime endTime roomNumber newId : Nat) : ProposeResult × DB :=
  if endTime ≤ startTime then
    (.validationError, db)
  else if (teacherEmail, courseId) ∉ db.teacherCourse then
    (.notAssigned, db)
  else if roomConflict db roomNumber day startTime endTime then
    (.roomBooked, db)
  else if teacherConflict db teacherEmail day startTime endTime then
    (.instructorBooked, db)
  else
    (.created newId,
      { db with timetable :=
          ⟨newId, courseId, divId, teacherEmail, day, startTime, endTime, roomNumber⟩
            :: db.timetable })

/-- Outcome of `DELETE /api/timetables/:timetableId`. -/
inductive DeleteResult where
  | notFound
  | forbidden
  | deleted
deriving DecidableEq, Repr

/-- `DELETE /api/timetables/:timetableId` (DeleteSlot). The handler looks the
entry up, returns 404 when absent, 403 when the requester is neither the
owning teacher nor an admin, and otherwise runs
`DELETE FROM timetable WHERE Timetable_ID = ?`. -/
def deleteTimetable (db : DB) (timetableId teacherEmail : Nat) (isAdmin : Bool) :
    DeleteResult × DB :=
  match db.timetable.find? (fun t => decide (t.timetableId = timetableId)) with
  | none => (.notFound, db)
  | some t =>
    if t.teacherEmail ≠ teacherEmail ∧ isAdmin = false then
      (.forbidden, db)
    else
      (.deleted,
        { db with timetable :=
            db.timetable.filter (fun u => decide (u.timetableId ≠ timetableId)) })

/-- The query of `GET /api/teachers/my-current-classes` (ActiveSlotsFor):
`WHERE Teacher_Email = ? AND Day_Of_Week = ? AND Start_Time <= ? AND End_Time > ?`,
keeping the stored order (the `ORDER BY` clause does not affect which rows
are returned). -/
def currentClasses (db : DB) (teacherEmail : Nat) (day : Day) (t : Nat) :
    List TimetableEntry :=
  db.timetable.filter (fun s =>
    decide (s.teacherEmail = teacherEmail) && decide (s.dayOfWeek = day) &&
    decide (s.startTime ≤ t) && decide (t < s.endTime))

/-- Outcome of `POST /api/qr/generate`. -/
inductive GenerateResult where
  | notCurrentlyScheduled
  | generated (qrId : Nat)
deriving DecidableEq, Repr

/-- `POST /api/qr/generate` (MintSession). The handler queries
`timetable WHERE Teacher_Email = ? AND Course_ID = ? AND Day_Of_Week = ? AND
Start_Time <= ? AND End_Time > ?` for the current day and time of day; if no
row matches it returns 403 and stores nothing, otherwise it inserts a
`QR_code` row with a fresh `QR_ID` and the current instant. -/
def generateQR (db : DB) (teacherEmail courseId : Nat) (day : Day) (tod : Nat)
    (now : Int) (newQrId : Nat) : GenerateResult × DB :=
  if ∃ s ∈ db.timetable, s.teacherEmail = teacherEmail ∧ s.courseId = courseId ∧
      s.dayOfWeek = day ∧ s.startTime ≤ tod ∧ tod < s.endTime then
    (.generated newQrId,
      { db with qrCodes := ⟨newQrId, now, courseId, teacherEmail⟩ :: db.qrCodes })
  else
    (.notCurrentlyScheduled, db)

/-- Outcome of `POST /api/attendance/mark`. -/
inductive MarkResult where
  | invalidOrExpired
  | notEnrolled
  | alreadyMarked
  | marked
deriving DecidableEq, Repr

/-- The QR lookup condition of `POST /api/attendance/mark`:
`WHERE QR_ID = ? AND Generated_Time >= DATE_SUB(NOW(), INTERVAL 15 MINUTE)`,
i.e. the row matches the scanned id and `now - Generated_Time <= 15m`. -/
def qrLookup (qrId : Nat) (now : Int) (q : QRCode) : Bool :=
  decide (q.qrId = qrId) && decide (now - q.generatedTime ≤ validityWindow)

/-- `POST /api/attendance/mark` (RedeemSession). The handler looks the QR code
up together with its expiry condition (400 when no row matches), checks
`student_course` enrollment for the QR code's course (403), checks for an
existing `attendance` row for `(PRN, QR_ID)` (409), and only then inserts the
attendance record with `Status = TRUE`. -/
def markAttendance (db : DB) (studentPRN qrId : Nat) (now : Int)
    (newAttendanceId : Nat) : MarkResult × DB :=
  match db.qrCodes.find? (qrLookup qrId now) with
  | none => (.invalidOrExpired, db)
  | some q =>
    if (studentPRN, q.courseId) ∉ db.studentCourse then
      (.notEnrolled, db)
    else if ∃ a ∈ db.attendance, a.prn = studentPRN ∧ a.qrId = qrId then
      (.alreadyMarked, db)
    else
      (.marked,
        { db with attendance :=
            ⟨newAttendanceId, now, studentPRN, q.courseId, qrId, true⟩
              :: db.attendance })

/-- Outcome of `GET /api/qr/:qrId/display`. -/
inductive DisplayResult where
  | notFound
  | forbidden
  | expired
  | ok (q : QRCode)
deriving DecidableEq, Repr

/-- `GET /api/qr/:qrId/display` (DisplaySession). The handler fetches the
`QR_code` row (404 when absent), returns 403 when the requester is neither
the generating teacher nor an admin, returns 410 when
`now > Generated_Time + 15m`, and otherwise re-renders the stored code.
The route runs only `SELECT` statements, so it is embedded as a pure read. -/
def displayQR (db : DB) (qrId teacherEmail : Nat) (isAdmin : Bool) (now : Int) :
    DisplayResult :=
  match db.qrCodes.find? (fun q => decide (q.qrId = qrId)) with
  | none => .notFound
  | some q =>
    if q.teacherEmail ≠ teacherEmail ∧ isAdmin = false then
      .forbidden
    else if q.generatedTime + validityWindow < now then
      .expired
    else
      .ok q

/-- `COUNT(DISTINCT qr.QR_ID)` for one course group of the attendance
summary query: the number of distinct QR codes generated for the course. -/
def totalClassesHeld (db : DB) (courseId : Nat) : Nat :=
  (((db.qrCodes.filter (fun q => decide (q.courseId = courseId))).map
    (fun q => q.qrId)).dedup).length

/-- `SUM(CASE WHEN a.Status = TRUE THEN 1 ELSE 0 END)` for one course group:
over the left join, each QR code of the course contributes one unit per
matching `attendance` row of the student with `Status = TRUE`. -/
def classesAttended (db : DB) (prn courseId : Nat) : Nat :=
  ((db.qrCodes.filter (fun q => decide (q.courseId = courseId))).map
    (fun q => (db.attendance.filter (fun a =>
      decide (a.prn = prn) && decide (a.qrId = q.qrId) && a.status)).length)).sum

/-- SQL `NULLIF(x, y)`. -/
def nullif (x y : ℚ) : Option ℚ :=
  if x = y then none else some x

/-- The percentage expression of both aggregate queries:
`IFNULL((SUM(...) / NULLIF(COUNT(DISTINCT qr.QR_ID), 0)) * 100, 0)`,
with `NULL` propagating through the division and multiplication. -/
def attendancePercentage (attended total : Nat) : ℚ :=
  ((nullif (total : ℚ) 0).map (fun t => ((attended : ℚ) / t) * 100)).getD 0

/-- One row of the `GET /api/students/my-attendance` response. -/
structure SummaryRow where
  courseId : Nat
  total : Nat
  attended : Nat
  percentage : ℚ
deriving DecidableEq, Repr

/-- `GET /api/students/my-attendance` (SummaryFor): one aggregate row per
course the student is enrolled in. -/
def myAttendance (db : DB) (prn : Nat) : List SummaryRow :=
  (((db.studentCourse.filter (fun p => decide (p.1 = prn))).map
    (fun p => p.2)).dedup).map
    (fun c => ⟨c, totalClassesHeld db c, classesAttended db prn c,
      attendancePercentage (classesAttended db prn c) (totalClassesHeld db c)⟩)

/-- One row of the `GET /api/teachers/my-courses/:courseId/attendance` response. -/
structure ReportRow where
  prn : Nat
  total : Nat
  attended : Nat
  percentage : ℚ
deriving DecidableEq, Repr

/-- `GET /api/teachers/my-courses/:courseId/attendance` (ReportFor): one
aggregate row per student enrolled in the course, using the same
`IFNULL`/`NULLIF` percentage expression. -/
def courseReport (db : DB) (courseId : Nat) : List ReportRow :=
  (((db.studentCourse.filter (fun p => decide (p.2 = courseId))).map
    (fun p => p.1)).dedup).map
    (fun s => ⟨s, totalClassesHeld db courseId, classesAttended db s courseId,
      attendancePercentage (classesAttended db s courseId) (totalClassesHeld db courseId)⟩)

/-- A timetable-mutating request: `POST /api/timetables` or
`DELETE /api/timetables/:timetableId`, with all request data. -/
inductive TimetableOp where
  | propose (teacherEmail courseId divId : Nat) (day : Day)
      (startTime endTime roomNumber newId : Nat)
  | remove (timetableId teacherEmail : Nat) (isAdmin : Bool)
deriving DecidableEq, Repr

/-- State transition of one timetable request (failed requests leave the
database unchanged, so this covers exactly the successful mutations). -/
def applyTimetableOp (db : DB) : TimetableOp → DB
  | .propose te c dv d s e r id => (createTimetable db te c dv d s e r id).2
  | .remove id te adm => (deleteTimetable db id te adm).2

/-- State after a sequence of timetable requests. -/
def applyTimetableOps (db : DB) (ops : List TimetableOp) : DB :=
  ops.foldl applyTimetableOp db

/-- A database whose timetable holds no two entries for the same teacher and
day with overlapping intervals. -/
def noTeacherOverlap (l : List TimetableEntry) : Prop :=
  l.Pairwise (fun a b => a.teacherEmail = b.teacherEmail → a.dayOfWeek = b.dayOfWeek →
    ¬ timeOverlap a.startTime a.endTime b.startTime b.endTime)

/-- One attendance-marking request: `(PRN, QR_ID, now, fresh Attendance_ID)`. -/
def applyMarks (db : DB) (calls : List (Nat × Nat × Int × Nat)) : DB :=
  calls.foldl (fun st c => (markAttendance st c.1 c.2.1 c.2.2.1 c.2.2.2).2) db

/-- An attendance ledger with at most one record per `(PRN, QR_ID)` pair. -/
def uniquePairs (l : List AttendanceRecord) : Prop :=
  l.Pairwise (fun a b => ¬ (a.prn = b.prn ∧ a.qrId = b.qrId))

/-- Example database: teacher `1` assigned to course `10`, everything else empty. -/
def dbAssign : DB := ⟨[(1, 10)], [], [], [], []⟩

/-- Example database: teacher `2` assigned to course `10` and scheduled for it
on Monday over `[0, 100)` in room `5`; student `7` enrolled in course `10`. -/
def dbSlot : DB := ⟨[(2, 10)], [(7, 10)], [⟨1, 10, 0, 2, .monday, 0, 100, 5⟩], [], []⟩

/-- Example database: student `7` enrolled in course `10`; QR code `5` for
course `10` generated by teacher `3` at instant `0`; no attendance yet. -/
def dbQR : DB := ⟨[], [(7, 10)], [], [⟨5, 0, 10, 3⟩], []⟩

/-- `dbQR` after student `7` has marked attendance against QR code `5`. -/
def dbQRMarked : DB := ⟨[], [(7, 10)], [], [⟨5, 0, 10, 3⟩],
  [⟨50, 10, 7, 10, 5, true⟩]⟩

/-! ## Branch equations of the embedded handlers -/

theorem createTimetable_eq_validation (db : DB) (te c dv : Nat) (d : Day)
    (s e r id : Nat) (h1 : e ≤ s) :
    createTimetable db te c dv d s e r id = (.validationError, db) := by
  unfold createTimetable
  rw [if_pos h1]

theorem createTimetable_eq_notAssigned (db : DB) (te c dv : Nat) (d : Day)
    (s e r id : Nat) (h1 : ¬ e ≤ s) (h2 : (te, c) ∉ db.teacherCourse) :
    createTimetable db te c dv d s e r id = (.notAssigned, db) := by
  unfold createTimetable
  rw [if_neg h1, if_pos h2]

theorem createTimetable_eq_roomBooked (db : DB) (te c dv : Nat) (d : Day)
    (s e r id : Nat) (h1 : ¬ e ≤ s) (h2 : (te, c) ∈ db.teacherCourse)
    (h3 : roomConflict db r d s e) :
    createTimetable db te c dv d s e r id = (.roomBooked, db) := by
  unfold createTimetable
  rw [if_neg h1, if_neg (not_not_intro h2), if_pos h3]

theorem createTimetable_eq_instructorBooked (db : DB) (te c dv : Nat) (d : Day)
    (s e r id : Nat) (h1 : ¬ e ≤ s) (h2 : (te, c) ∈ db.teacherCourse)
    (h3 : ¬ roomConflict db r d s e) (h4 : teacherConflict db te d s e) :
    createTimetable db te c dv d s e r id = (.instructorBooked, db) := by
  unfold createTimetable
  rw [if_neg h1, if_neg (not_not_intro h2), if_neg h3, if_pos h4]

theorem createTimetable_eq_created (db : DB) (te c dv : Nat) (d : Day)
    (s e r id : Nat) (h1 : ¬ e ≤ s) (h2 : (te, c) ∈ db.teacherCourse)
    (h3 : ¬ roomConflict db r d s e) (h4 : ¬ teacherConflict db te d s e) :
    createTimetable db te c dv d s e r id = (.created id,
      { db with timetable := ⟨id, c, dv, te, d, s, e, r⟩ :: db.timetable }) := by
  unfold createTimetable
  rw [if_neg h1, if_neg (not_not_intro h2), if_neg h3, if_neg h4]

theorem deleteTimetable_eq_notFound (db : DB) (tid te : Nat) (adm : Bool)
    (hf : db.timetable.find? (fun t => decide (t.timetableId = tid)) = none) :
    deleteTimetable db tid te adm = (.notFound, db) := by
  simp only [deleteTimetable, hf]

theorem deleteTimetable_eq_forbidden (db : DB) (tid te : Nat) (adm : Bool)
    (t : TimetableEntry)
    (hf : db.timetable.find? (fun u => decide (u.timetableId = tid)) = some t)
    (hc : t.teacherEmail ≠ te ∧ adm = false) :
    deleteTimetable db tid te adm = (.forbidden, db) := by
  simp only [deleteTimetable, hf]
  rw [if_pos hc]

theorem deleteTimetable_eq_deleted (db : DB) (tid te : Nat) (adm : Bool)
    (t : TimetableEntry)
    (hf : db.timetable.find? (fun u => decide (u.timetableId = tid)) = some t)
    (hc : ¬ (t.teacherEmail ≠ te ∧ adm = false)) :
    deleteTimetable db tid te adm = (.deleted,
      { db with timetable :=
          db.timetable.filter (fun u => decide (u.timetableId ≠ tid)) }) := by
  simp only [deleteTimetable, hf]
  rw [if_neg hc]

theorem generateQR_eq_generated (db : DB) (te c : Nat) (d : Day) (tod : Nat)
    (now : Int) (qid : Nat)
    (h : ∃ s ∈ db.timetable, s.teacherEmail = te ∧ s.courseId = c ∧
      s.dayOfWeek = d ∧ s.startTime ≤ tod ∧ tod < s.endTime) :
    generateQR db te c d tod now qid = (.generated qid,
      { db with qrCodes := ⟨qid, now, c, te⟩ :: db.qrCodes }) := by
  unfold generateQR
  rw [if_pos h]

theorem generateQR_eq_notScheduled (db : DB) (te c : Nat) (d : Day) (tod : Nat)
    (now : Int) (qid : Nat)
    (h : ¬ ∃ s ∈ db.timetable, s.teacherEmail = te ∧ s.courseId = c ∧
      s.dayOfWeek = d ∧ s.startTime ≤ tod ∧ tod < s.endTime) :
    generateQR db te c d tod now qid = (.notCurrentlyScheduled, db) := by
  unfold generateQR
  rw [if_neg h]

theorem markAttendance_eq_invalid (db : DB) (prn qid : Nat) (now : Int)
    (aid : Nat) (hf : db.qrCodes.find? (qrLookup qid now) = none) :
    markAttendance db prn qid now aid = (.invalidOrExpired, db) := by
  simp only [markAttendance, hf]

theorem markAttendance_eq_notEnrolled (db : DB) (prn qid : Nat) (now : Int)
    (aid : Nat) (q : QRCode) (hf : db.qrCodes.find? (qrLookup qid now) = some q)
    (he : (prn, q.courseId) ∉ db.studentCourse) :
    markAttendance db prn qid now aid = (.notEnrolled, db) := by
  simp only [markAttendance, hf]
  rw [if_pos he]

theorem markAttendance_eq_already (db : DB) (prn qid : Nat) (now : Int)
    (aid : Nat) (q : QRCode) (hf : db.qrCodes.find? (qrLookup qid now) = some q)
    (he : (prn, q.courseId) ∈ db.studentCourse)
    (hx : ∃ a ∈ db.attendance, a.prn = prn ∧ a.qrId = qid) :
    markAttendance db prn qid now aid = (.alreadyMarked, db) := by
  simp only [markAttendance, hf]
  rw [if_neg (not_not_intro he), if_pos hx]

theorem markAttendance_eq_marked (db : DB) (prn qid : Nat) (now : Int)
    (aid : Nat) (q : QRCode) (hf : db.qrCodes.find? (qrLookup qid now) = some q)
    (he : (prn, q.courseId) ∈ db.studentCourse)
    (hx : ¬ ∃ a ∈ db.attendance, a.prn = prn ∧ a.qrId = qid) :
    markAttendance db prn qid now aid = (.marked,
      { db with attendance :=
          ⟨aid, now, prn, q.courseId, qid, true⟩ :: db.attendance }) := by
  simp only [markAttendance, hf]
  rw [if_neg (not_not_intro he), if_neg hx]

theorem displayQR_eq_notFound (db : DB) (qid te : Nat) (adm : Bool) (now : Int)
    (hf : db.qrCodes.find? (fun q => decide (q.qrId = qid)) = none) :
    displayQR db qid te adm now = .notFound := by
  simp only [displayQR, hf]

theorem displayQR_eq_forbidden (db : DB) (qid te : Nat) (adm : Bool) (now : Int)
    (q : QRCode) (hf : db.qrCodes.find? (fun x => decide (x.qrId = qid)) = some q)
    (hc : q.teacherEmail ≠ te ∧ adm = false) :
    displayQR db qid te adm now = .forbidden := by
  simp only [displayQR, hf]
  rw [if_pos hc]

theorem displayQR_eq_expired (db : DB) (qid te : Nat) (adm : Bool) (now : Int)
    (q : QRCode) (hf : db.qrCodes.find? (fun x => decide (x.qrId = qid)) = some q)
    (hc : ¬ (q.teacherEmail ≠ te ∧ adm = false))
    (hexp : q.generatedTime + validityWindow < now) :
    displayQR db qid te adm now = .expired := by
  simp only [displayQR, hf]
  rw [if_neg hc, if_pos hexp]

theorem displayQR_eq_ok (db : DB) (qid te : Nat) (adm : Bool) (now : Int)
    (q : QRCode) (hf : db.qrCodes.find? (fun x => decide (x.qrId = qid)) = some q)
    (hc : ¬ (q.teacherEmail ≠ te ∧ adm = false))
    (hfresh : ¬ q.generatedTime + validityWindow < now) :
    displayQR db qid te adm now = .ok q := by
  simp only [displayQR, hf]
  rw [if_neg hc, if_neg hfresh]

/-! ## Helper lemmas -/

theorem find_eq_some_of_unique {α : Type _} (p : α → Bool) (l : List α) (q : α)
    (hq : q ∈ l) (hpq : p q = true) (huniq : ∀ x ∈ l, p x = true → x = q) :
    l.find? p = some q := by
  induction l with
  | nil => cases hq
  | cons a t ih =>
    by_cases ha : p a = true
    · have haq : a = q := huniq a (List.mem_cons_self a t) ha
      subst haq
      exact List.find?_cons_of_pos t ha
    · have hq2 : q ∈ t := by
        cases List.mem_cons.mp hq with
        | inl h => exact absurd (h ▸ hpq) ha
        | inr h => exact h
      rw [List.find?_cons_of_neg t ha]
      exact ih hq2 (fun x hx hpx => huniq x (List.mem_cons_of_mem a hx) hpx)

theorem markAttendance_failure_unchanged (db : DB) (prn qid : Nat) (now : Int)
    (aid : Nat) (h : (markAttendance db prn qid now aid).1 ≠ .marked) :
    (markAttendance db prn qid now aid).2 = db := by
  cases hf : db.qrCodes.find? (qrLookup qid now) with
  | none => rw [markAttendance_eq_invalid db prn qid now aid hf]
  | some q =>
    by_cases he : (prn, q.courseId) ∈ db.studentCourse
    · by_cases hx : ∃ a ∈ db.attendance, a.prn = prn ∧ a.qrId = qid
      · rw [markAttendance_eq_already db prn qid now aid q hf he hx]
      · rw [markAttendance_eq_marked db prn qid now aid q hf he hx] at h
        exact absurd rfl h
    · rw [markAttendance_eq_notEnrolled db prn qid now aid q hf he]

theorem markAttendance_not_marked_of_record (db : DB) (prn qid : Nat) (now : Int)
    (aid : Nat) (h : ∃ a ∈ db.attendance, a.prn = prn ∧ a.qrId = qid) :
    (markAttendance db prn qid now aid).1 ≠ .marked := by
  cases hf : db.qrCodes.find? (qrLookup qid now) with
  | none => rw [markAttendance_eq_invalid db prn qid now aid hf]; simp
  | some q =>
    by_cases he : (prn, q.courseId) ∈ db.studentCourse
    · rw [markAttendance_eq_already db prn qid now aid q hf he h]; simp
    · rw [markAttendance_eq_notEnrolled db prn qid now aid q hf he]; simp

theorem markAttendance_marked_inserts (db db2 : DB) (prn qid : Nat) (now : Int)
    (aid : Nat) (h : markAttendance db prn qid now aid = (.marked, db2)) :
    ∃ c, db2.attendance = ⟨aid, now, prn, c, qid, true⟩ :: db.attendance := by
  cases hf : db.qrCodes.find? (qrLookup qid now) with
  | none => rw [markAttendance_eq_invalid db prn qid now aid hf] at h; simp at h
  | some q =>
    by_cases he : (prn, q.courseId) ∈ db.studentCourse
    · by_cases hx : ∃ a ∈ db.attendance, a.prn = prn ∧ a.qrId = qid
      · rw [markAttendance_eq_already db prn qid now aid q hf he hx] at h
        simp at h
      · rw [markAttendance_eq_marked db prn qid now aid q hf he hx,
          Prod.mk.injEq] at h
        exact ⟨q.courseId, by rw [← h.2]⟩
    · rw [markAttendance_eq_notEnrolled db prn qid now aid q hf he] at h
      simp at h

theorem markAttendance_uniquePairs (db : DB) (prn qid : Nat) (now : Int) (aid : Nat)
    (h : uniquePairs db.attendance) :
    uniquePairs ((markAttendance db prn qid now aid).2).attendance := by
  cases hf : db.qrCodes.find? (qrLookup qid now) with
  | none => rw [markAttendance_eq_invalid db prn qid now aid hf]; exact h
  | some q =>
    by_cases he : (prn, q.courseId) ∈ db.studentCourse
    · by_cases hx : ∃ a ∈ db.attendance, a.prn = prn ∧ a.qrId = qid
      · rw [markAttendance_eq_already db prn qid now aid q hf he hx]; exact h
      · rw [markAttendance_eq_marked db prn qid now aid q hf he hx]
        unfold uniquePairs at h ⊢
        refine List.Pairwise.cons ?_ h
        intro b hb hcontra
        exact hx ⟨b, hb, hcontra.1.symm, hcontra.2.symm⟩
    · rw [markAttendance_eq_notEnrolled db prn qid now aid q hf he]; exact h

theorem applyMarks_uniquePairs (db : DB) (calls : List (Nat × Nat × Int × Nat))
    (h : uniquePairs db.attendance) :
    uniquePairs (applyMarks db calls).attendance := by
  induction calls generalizing db with
  | nil => exact h
  | cons c cs ih =>
    exact ih _ (markAttendance_uniquePairs db c.1 c.2.1 c.2.2.1 c.2.2.2 h)

theorem createTimetable_noTeacherOverlap (db : DB) (te c dv : Nat) (d : Day)
    (s e r id : Nat) (h : noTeacherOverlap db.timetable) :
    noTeacherOverlap ((createTimetable db te c dv d s e r id).2).timetable := by
  by_cases h1 : e ≤ s
  · rw [createTimetable_eq_validation db te c dv d s e r id h1]; exact h
  · by_cases h2 : (te, c) ∈ db.teacherCourse
    · by_cases h3 : roomConflict db r d s e
      · rw [createTimetable_eq_roomBooked db te c dv d s e r id h1 h2 h3]; exact h
      · by_cases h4 : teacherConflict db te d s e
        · rw [createTimetable_eq_instructorBooked db te c dv d s e r id h1 h2 h3 h4]
          exact h
        · rw [createTimetable_eq_created db te c dv d s e r id h1 h2 h3 h4]
          unfold noTeacherOverlap at h ⊢
          refine List.Pairwise.cons ?_ h
          intro b hb hte hday hov
          exact h4 ⟨b, hb, hte.symm, hday.symm, hov⟩
    · rw [createTimetable_eq_notAssigned db te c dv d s e r id h1 h2]; exact h

theorem deleteTimetable_noTeacherOverlap (db : DB) (tid te : Nat) (adm : Bool)
    (h : noTeacherOverlap db.timetable) :
    noTeacherOverlap ((deleteTimetable db tid te adm).2).timetable := by
  cases hf : db.timetable.find? (fun t => decide (t.timetableId = tid)) with
  | none => rw [deleteTimetable_eq_notFound db tid te adm hf]; exact h
  | some t =>
    by_cases hc : t.teacherEmail ≠ te ∧ adm = false
    · rw [deleteTimetable_eq_forbidden db tid te adm t hf hc]; exact h
    · rw [deleteTimetable_eq_deleted db tid te adm t hf hc]
      exact h.sublist (List.filter_sublist db.timetable)

theorem applyTimetableOps_noTeacherOverlap (db : DB) (ops : List TimetableOp)
    (h : noTeacherOverlap db.timetable) :
    noTeacherOverlap (applyTimetableOps db ops).timetable := by
  induction ops generalizing db with
  | nil => exact h
  | cons op ops ih =>
    cases op with
    | propose te c dv d s e r id =>
      exact ih _ (createTimetable_noTeacherOverlap db te c dv d s e r id h)
    | remove id te adm =>
      exact ih _ (deleteTimetable_noTeacherOverlap db id te adm h)

theorem currentClasses_le_one_of_inv (db : DB) (h : noTeacherOverlap db.timetable)
    (te : Nat) (d : Day) (t : Nat) : (currentClasses db te d t).length ≤ 1 := by
  unfold noTeacherOverlap at h
  unfold currentClasses
  have hp := h.sublist (List.filter_sublist db.timetable
    (p := fun s => decide (s.teacherEmail = te) && decide (s.dayOfWeek = d) &&
      decide (s.startTime ≤ t) && decide (t < s.endTime)))
  cases hfl : db.timetable.filter (fun s =>
      decide (s.teacherEmail = te) && decide (s.dayOfWeek = d) &&
      decide (s.startTime ≤ t) && decide (t < s.endTime)) with
  | nil => simp
  | cons a rest =>
    cases rest with
    | nil => simp
    | cons b rest2 =>
      exfalso
      rw [hfl] at hp
      have hr := List.rel_of_pairwise_cons hp (List.mem_cons_self b rest2)
      have ha : a ∈ db.timetable.filter (fun s =>
          decide (s.teacherEmail = te) && decide (s.dayOfWeek = d) &&
          decide (s.startTime ≤ t) && decide (t < s.endTime)) := by
        rw [hfl]; exact List.mem_cons_self a (b :: rest2)
      have hb : b ∈ db.timetable.filter (fun s =>
          decide (s.teacherEmail = te) && decide (s.dayOfWeek = d) &&
          decide (s.startTime ≤ t) && decide (t < s.endTime)) := by
        rw [hfl]; exact List.mem_cons_of_mem a (List.mem_cons_self b rest2)
      have hpa := (List.mem_filter.mp ha).2
      have hpb := (List.mem_filter.mp hb).2
      simp only [Bool.and_eq_true, decide_eq_true_eq] at hpa hpb
      obtain ⟨⟨⟨ha1, ha2⟩, ha3⟩, ha4⟩ := hpa
      obtain ⟨⟨⟨hb1, hb2⟩, hb3⟩, hb4⟩ := hpb
      apply hr (ha1.trans hb1.symm) (ha2.trans hb2.symm)
      unfold timeOverlap
      intro hor
      rcases hor with h1 | h2 <;> omega

theorem attendancePercentage_zero (a : Nat) : attendancePercentage a 0 = 0 := by
  unfold attendancePercentage nullif
  simp

theorem attendancePercentage_pos (a t : Nat) (h : 0 < t) :
    attendancePercentage a t = (a : ℚ) / (t : ℚ) * 100 := by
  unfold attendancePercentage nullif
  rw [if_neg (by exact_mod_cast Nat.pos_iff_ne_zero.mp h)]
  rfl

/-! ## Claim theorems -/

/-- Claim C1: at most one attendance record exists per `(PRN, QR_ID)` pair.
If a record for the pair exists, `markAttendance` never succeeds and leaves the
database unchanged; when the QR lookup and the enrollment check pass it fails
with exactly `alreadyMarked`; any sequence of marking calls preserves
pairwise uniqueness of `(PRN, QR_ID)` in the ledger; and after one successful
mark for a pair, a second attempt for the same pair never succeeds. -/
theorem attendance_at_most_once_per_pair :
    (∀ (db : DB) (prn qid : Nat) (now : Int) (aid : Nat),
      (∃ a ∈ db.attendance, a.prn = prn ∧ a.qrId = qid) →
      (markAttendance db prn qid now aid).1 ≠ .marked ∧
      (markAttendance db prn qid now aid).2 = db) ∧
    (∀ (db : DB) (prn qid : Nat) (now : Int) (aid : Nat) (q : QRCode),
      db.qrCodes.find? (qrLookup qid now) = some q →
      (prn, q.courseId) ∈ db.studentCourse →
      (∃ a ∈ db.attendance, a.prn = prn ∧ a.qrId = qid) →
      markAttendance db prn qid now aid = (.alreadyMarked, db)) ∧
    (∀ (db : DB) (calls : List (Nat × Nat × Int × Nat)),
      uniquePairs db.attendance → uniquePairs (applyMarks db calls).attendance) ∧
    (∀ (db db2 : DB) (prn qid : Nat) (n1 n2 : Int) (a1 a2 : Nat),
      markAttendance db prn qid n1 a1 = (.marked, db2) →
      (markAttendance db2 prn qid n2 a2).1 ≠ .marked) := by
  refine ⟨?_, ?_, ?_, ?_⟩
  · intro db prn qid now aid h
    exact ⟨markAttendance_not_marked_of_record db prn qid now aid h,
      markAttendance_failure_unchanged db prn qid now aid
        (markAttendance_not_marked_of_record db prn qid now aid h)⟩
  · intro db prn qid now aid q hf he h
    exact markAttendance_eq_already db prn qid now aid q hf he h
  · intro db calls h
    exact applyMarks_uniquePairs db calls h
  · intro db db2 prn qid n1 n2 a1 a2 hm
    obtain ⟨c, hatt⟩ := markAttendance_marked_inserts db db2 prn qid n1 a1 hm
    apply markAttendance_not_marked_of_record
    exact ⟨⟨a1, n1, prn, c, qid, true⟩,
      by rw [hatt]; exact List.mem_cons_self _ _, rfl, rfl⟩

/-- Witness for C1: in `dbQRMarked` student `7` already holds a record for QR
code `5`, so a second marking attempt fails with `alreadyMarked` and changes
nothing. -/
theorem attendance_at_most_once_per_pair_witness :
    markAttendance dbQRMarked 7 5 10 51 = (.alreadyMarked, dbQRMarked) :=
  attendance_at_most_once_per_pair.2.1 dbQRMarked 7 5 10 51 ⟨5, 0, 10, 3⟩
    (by decide) (by decide) (by decide)

/-- Claim C2: timetable creation rejects with `roomBooked` exactly when an
existing slot in the same room and day overlaps (half-open semantics), with
`instructorBooked` exactly when no room conflict exists but an existing slot of
the same teacher and day overlaps, and succeeds exactly when neither conflict
exists; touching intervals are not conflicts, so `[600,660)` then `[660,720)`
in the same room both succeed while `[600,660)` then `[630,690)` is rejected
with `roomBooked`. -/
theorem createTimetable_conflict_rules (db : DB) (te c dv : Nat) (d : Day)
    (s e r id : Nat) (hv : s < e) (ha : (te, c) ∈ db.teacherCourse) :
    ((createTimetable db te c dv d s e r id).1 = .roomBooked ↔
      roomConflict db r d s e) ∧
    ((createTimetable db te c dv d s e r id).1 = .instructorBooked ↔
      (¬ roomConflict db r d s e ∧ teacherConflict db te d s e)) ∧
    ((createTimetable db te c dv d s e r id).1 = .created id ↔
      (¬ roomConflict db r d s e ∧ ¬ teacherConflict db te d s e)) ∧
    (roomConflict db r d s e ↔ ∃ t ∈ db.timetable, t.roomNumber = r ∧
      t.dayOfWeek = d ∧ ¬ (e ≤ t.startTime ∨ t.endTime ≤ s)) ∧
    (teacherConflict db te d s e ↔ ∃ t ∈ db.timetable, t.teacherEmail = te ∧
      t.dayOfWeek = d ∧ ¬ (e ≤ t.startTime ∨ t.endTime ≤ s)) ∧
    ((createTimetable (createTimetable dbAssign 1 10 0 .monday 600 660 5 100).2
        1 10 0 .monday 660 720 5 101).1 = .created 101) ∧
    ((createTimetable (createTimetable dbAssign 1 10 0 .monday 600 660 5 100).2
        1 10 0 .monday 630 690 5 101).1 = .roomBooked) := by
  have h1 : ¬ e ≤ s := not_le.mpr hv
  refine ⟨?_, ?_, ?_, Iff.rfl, Iff.rfl, by decide, by decide⟩
  · by_cases h3 : roomConflict db r d s e
    · rw [createTimetable_eq_roomBooked db te c dv d s e r id h1 ha h3]
      simp [h3]
    · by_cases h4 : teacherConflict db te d s e
      · rw [createTimetable_eq_instructorBooked db te c dv d s e r id h1 ha h3 h4]
        simp [h3]
      · rw [createTimetable_eq_created db te c dv d s e r id h1 ha h3 h4]
        simp [h3]
  · by_cases h3 : roomConflict db r d s e
    · rw [createTimetable_eq_roomBooked db te c dv d s e r id h1 ha h3]
      simp [h3]
    · by_cases h4 : teacherConflict db te d s e
      · rw [createTimetable_eq_instructorBooked db te c dv d s e r id h1 ha h3 h4]
        simp [h3, h4]
      · rw [createTimetable_eq_created db te c dv d s e r id h1 ha h3 h4]
        simp [h3, h4]
  · by_cases h3 : roomConflict db r d s e
    · rw [createTimetable_eq_roomBooked db te c dv d s e r id h1 ha h3]
      simp [h3]
    · by_cases h4 : teacherConflict db te d s e
      · rw [createTimetable_eq_instructorBooked db te c dv d s e r id h1 ha h3 h4]
        simp [h3, h4]
      · rw [createTimetable_eq_created db te c dv d s e r id h1 ha h3 h4]
        simp [h3, h4]

/-- Witness for C2: with teacher `1` assigned to course `10` and an empty
timetable, proposing `[600,660)` in room `5` on Monday succeeds. -/
theorem createTimetable_conflict_rules_witness :
    (createTimetable dbAssign 1 10 0 .monday 600 660 5 100).1 = .created 100 :=
  ((createTimetable_conflict_rules dbAssign 1 10 0 .monday 600 660 5 100
    (by decide) (by decide)).2.2.1).mpr (by decide)

/-- Claim C3: QR generation succeeds exactly when the timetable holds a slot of
the requesting teacher for the requested course whose half-open interval
contains the current time of day on the current day; otherwise it fails with
`notCurrentlyScheduled` and stores nothing, and on success it stores exactly
one new QR code row. -/
theorem generateQR_requires_active_slot (db : DB) (te c : Nat) (d : Day)
    (tod : Nat) (now : Int) (qid : Nat) :
    ((generateQR db te c d tod now qid).1 = .generated qid ↔
      ∃ s ∈ db.timetable, s.teacherEmail = te ∧ s.courseId = c ∧ s.dayOfWeek = d ∧
        s.startTime ≤ tod ∧ tod < s.endTime) ∧
    ((generateQR db te c d tod now qid).1 = .notCurrentlyScheduled →
      (generateQR db te c d tod now qid).2 = db) ∧
    ((generateQR db te c d tod now qid).1 = .generated qid →
      (generateQR db te c d tod now qid).2.qrCodes = ⟨qid, now, c, te⟩ :: db.qrCodes) := by
  by_cases h : ∃ s ∈ db.timetable, s.teacherEmail = te ∧ s.courseId = c ∧
      s.dayOfWeek = d ∧ s.startTime ≤ tod ∧ tod < s.endTime
  · rw [generateQR_eq_generated db te c d tod now qid h]
    refine ⟨⟨fun _ => h, fun _ => rfl⟩, fun hc => ?_, fun _ => rfl⟩
    simp at hc
  · rw [generateQR_eq_notScheduled db te c d tod now qid h]
    refine ⟨⟨fun hc => ?_, fun hex => absurd hex h⟩, fun _ => rfl, fun hc => ?_⟩
    · simp at hc
    · simp at hc

/-- Witness for C3: in `dbSlot` teacher `2` is scheduled for course `10` on
Monday over `[0,100)`, so generating at time `50` stores a new QR code. -/
theorem generateQR_requires_active_slot_witness :
    (generateQR dbSlot 2 10 .monday 50 1000 7).2.qrCodes =
      (⟨7, 1000, 10, 2⟩ : QRCode) :: dbSlot.qrCodes :=
  (generateQR_requires_active_slot dbSlot 2 10 .monday 50 1000 7).2.2 (by decide)

/-- Claim C4: `markAttendance` fails with `invalidOrExpired` exactly when no
stored QR code matches the scanned id within the 15-minute window —
equivalently (for distinct QR ids) when the token is absent or
`now - Generated_Time > 15m` — and a code generated at instant `T` marks
successfully at `T+14m59s` (given enrollment and no prior record) but fails
with `invalidOrExpired` at `T+15m01s`. -/
theorem markAttendance_expiry_boundary :
    (∀ (db : DB) (prn qid : Nat) (now : Int) (aid : Nat),
      ((markAttendance db prn qid now aid).1 = .invalidOrExpired ↔
        ¬ ∃ q ∈ db.qrCodes, q.qrId = qid ∧ now - q.generatedTime ≤ validityWindow)) ∧
    (∀ (db : DB) (prn qid : Nat) (now : Int) (aid : Nat),
      (db.qrCodes.map (fun q => q.qrId)).Nodup →
      ((markAttendance db prn qid now aid).1 = .invalidOrExpired ↔
        ((∀ q ∈ db.qrCodes, q.qrId ≠ qid) ∨
         (∃ q ∈ db.qrCodes, q.qrId = qid ∧ validityWindow < now - q.generatedTime)))) ∧
    (∀ (db : DB) (q : QRCode) (prn aid : Nat),
      q ∈ db.qrCodes → (db.qrCodes.map (fun x => x.qrId)).Nodup →
      (prn, q.courseId) ∈ db.studentCourse →
      (¬ ∃ a ∈ db.attendance, a.prn = prn ∧ a.qrId = q.qrId) →
      (markAttendance db prn q.qrId (q.generatedTime + 899) aid).1 = .marked ∧
      (markAttendance db prn q.qrId (q.generatedTime + 901) aid).1 = .invalidOrExpired) := by
  have part1 : ∀ (db : DB) (prn qid : Nat) (now : Int) (aid : Nat),
      ((markAttendance db prn qid now aid).1 = .invalidOrExpired ↔
        ¬ ∃ q ∈ db.qrCodes, q.qrId = qid ∧ now - q.generatedTime ≤ validityWindow) := by
    intro db prn qid now aid
    cases hf : db.qrCodes.find? (qrLookup qid now) with
    | none =>
      rw [markAttendance_eq_invalid db prn qid now aid hf]
      constructor
      · rintro - ⟨q, hq, hid, hle⟩
        have h2 := List.find?_eq_none.mp hf q hq
        unfold qrLookup at h2
        simp only [Bool.and_eq_true, decide_eq_true_eq, not_and] at h2
        exact h2 hid hle
      · intro _; rfl
    | some q =>
      have hm := List.mem_of_find?_eq_some hf
      have hp := List.find?_some hf
      unfold qrLookup at hp
      simp only [Bool.and_eq_true, decide_eq_true_eq] at hp
      have hex : ∃ q2 ∈ db.qrCodes, q2.qrId = qid ∧
          now - q2.generatedTime ≤ validityWindow := ⟨q, hm, hp.1, hp.2⟩
      constructor
      · intro hres
        exfalso
        by_cases he : (prn, q.courseId) ∈ db.studentCourse
        · by_cases hx : ∃ a ∈ db.attendance, a.prn = prn ∧ a.qrId = qid
          · rw [markAttendance_eq_already db prn qid now aid q hf he hx] at hres
            simp at hres
          · rw [markAttendance_eq_marked db prn qid now aid q hf he hx] at hres
            simp at hres
        · rw [markAttendance_eq_notEnrolled db prn qid now aid q hf he] at hres
          simp at hres
      · intro hno
        exact absurd hex hno
  refine ⟨part1, ?_, ?_⟩
  · intro db prn qid now aid hnd
    rw [part1 db prn qid now aid]
    constructor
    · intro hno
      by_cases hex : ∃ q ∈ db.qrCodes, q.qrId = qid
      · obtain ⟨q, hq, hid⟩ := hex
        refine Or.inr ⟨q, hq, hid, ?_⟩
        by_contra hle
        push_neg at hle
        exact hno ⟨q, hq, hid, hle⟩
      · refine Or.inl ?_
        intro q hq hid
        exact hex ⟨q, hq, hid⟩
    · rintro (hall | ⟨q, hq, hid, hgt⟩) ⟨q2, hq2, hid2, hle2⟩
      · exact hall q2 hq2 hid2
      · have heq : q2 = q := List.inj_on_of_nodup_map hnd hq2 hq (by rw [hid2, hid])
        rw [heq] at hle2
        exact absurd hle2 (not_le.mpr hgt)
  · intro db q prn aid hq hnd he hrec
    have huni : ∀ x ∈ db.qrCodes, x.qrId = q.qrId → x = q := by
      intro x hx hxid
      exact List.inj_on_of_nodup_map hnd hx hq hxid
    constructor
    · have hfind : db.qrCodes.find? (qrLookup q.qrId (q.generatedTime + 899)) = some q := by
        apply find_eq_some_of_unique _ _ q hq
        · unfold qrLookup
          simp [validityWindow]
        · intro x hx hpx
          unfold qrLookup at hpx
          simp only [Bool.and_eq_true, decide_eq_true_eq] at hpx
          exact huni x hx hpx.1
      rw [markAttendance_eq_marked db prn q.qrId (q.generatedTime + 899) aid q hfind he hrec]
    · have hnone : db.qrCodes.find? (qrLookup q.qrId (q.generatedTime + 901)) = none := by
        rw [List.find?_eq_none]
        intro x hx
        unfold qrLookup
        simp only [Bool.and_eq_true, decide_eq_true_eq, not_and]
        intro hxid
        rw [huni x hx hxid]
        unfold validityWindow
        omega
      rw [markAttendance_eq_invalid db prn q.qrId (q.generatedTime + 901) aid hnone]

/-- Witness for C4: QR code `5` of `dbQR` was generated at instant `0`;
student `7` marks successfully at `899 = 14m59s` and gets
`invalidOrExpired` at `901 = 15m01s`. -/
theorem markAttendance_expiry_boundary_witness :
    (markAttendance dbQR 7 5 ((0 : Int) + 899) 50).1 = .marked ∧
    (markAttendance dbQR 7 5 ((0 : Int) + 901) 50).1 = .invalidOrExpired :=
  markAttendance_expiry_boundary.2.2 dbQR ⟨5, 0, 10, 3⟩ 7 50
    (by decide) (by decide) (by decide) (by decide)

/-- Claim C5: a student who is not enrolled in the QR code's course gets
`notEnrolled` and nothing is recorded, whenever the token lookup (which
includes the expiry condition) succeeds — regardless of any existing records,
i.e. before the duplicate check; and when the lookup fails the result is
`invalidOrExpired` regardless of enrollment, i.e. the enrollment check comes
after the expiry check. -/
theorem markAttendance_enrollment_gate :
    (∀ (db : DB) (prn qid : Nat) (now : Int) (aid : Nat) (q : QRCode),
      db.qrCodes.find? (qrLookup qid now) = some q →
      (prn, q.courseId) ∉ db.studentCourse →
      markAttendance db prn qid now aid = (.notEnrolled, db)) ∧
    (∀ (db : DB) (prn qid : Nat) (now : Int) (aid : Nat),
      db.qrCodes.find? (qrLookup qid now) = none →
      markAttendance db prn qid now aid = (.invalidOrExpired, db)) :=
  ⟨fun db prn qid now aid q hf he =>
      markAttendance_eq_notEnrolled db prn qid now aid q hf he,
    fun db prn qid now aid hf =>
      markAttendance_eq_invalid db prn qid now aid hf⟩

/-- Witness for C5: student `8` is not enrolled in course `10`, so scanning the
valid, unexpired QR code `5` of `dbQR` yields `notEnrolled` and no change. -/
theorem markAttendance_enrollment_gate_witness :
    markAttendance dbQR 8 5 10 51 = (.notEnrolled, dbQR) :=
  markAttendance_enrollment_gate.1 dbQR 8 5 10 51 ⟨5, 0, 10, 3⟩
    (by decide) (by decide)

/-- Claim C6: starting from an empty timetable, after any sequence of
timetable-creation and -deletion requests no two stored slots of the same
teacher and day overlap, and consequently the active-classes query returns at
most one slot for any teacher, day and instant. -/
theorem timetable_at_most_one_active (tc sc : List (Nat × Nat)) (qrs : List QRCode)
    (att : List AttendanceRecord) (ops : List TimetableOp) (te : Nat) (d : Day)
    (t : Nat) :
    noTeacherOverlap (applyTimetableOps ⟨tc, sc, [], qrs, att⟩ ops).timetable ∧
    (currentClasses (applyTimetableOps ⟨tc, sc, [], qrs, att⟩ ops) te d t).length ≤ 1 := by
  have hinv := applyTimetableOps_noTeacherOverlap ⟨tc, sc, [], qrs, att⟩ ops
    List.Pairwise.nil
  exact ⟨hinv, currentClasses_le_one_of_inv _ hinv te d t⟩

/-- Claim C7: the QR display route returns `notFound` exactly when no stored
code has the requested id; for the stored code it returns `forbidden` when the
requester is neither the generating teacher nor an admin, `expired` when more
than 15 minutes have elapsed, and the stored code itself otherwise. -/
theorem displayQR_checks (db : DB) (qid te : Nat) (adm : Bool) (now : Int) :
    (displayQR db qid te adm now = .notFound ↔ ∀ q ∈ db.qrCodes, q.qrId ≠ qid) ∧
    (∀ q : QRCode, db.qrCodes.find? (fun x => decide (x.qrId = qid)) = some q →
      ((q.teacherEmail ≠ te ∧ adm = false) →
        displayQR db qid te adm now = .forbidden) ∧
      ((q.teacherEmail = te ∨ adm = true) → q.generatedTime + validityWindow < now →
        displayQR db qid te adm now = .expired) ∧
      ((q.teacherEmail = te ∨ adm = true) → now ≤ q.generatedTime + validityWindow →
        displayQR db qid te adm now = .ok q)) := by
  constructor
  · cases hf : db.qrCodes.find? (fun x => decide (x.qrId = qid)) with
    | none =>
      rw [displayQR_eq_notFound db qid te adm now hf]
      constructor
      · intro _ q hq
        have h2 := List.find?_eq_none.mp hf q hq
        simpa using h2
      · intro _; rfl
    | some q =>
      have hm := List.mem_of_find?_eq_some hf
      have hp := List.find?_some hf
      simp only [decide_eq_true_eq] at hp
      constructor
      · intro hres
        exfalso
        by_cases hc : q.teacherEmail ≠ te ∧ adm = false
        · rw [displayQR_eq_forbidden db qid te adm now q hf hc] at hres
          simp at hres
        · by_cases hexp : q.generatedTime + validityWindow < now
          · rw [displayQR_eq_expired db qid te adm now q hf hc hexp] at hres
            simp at hres
          · rw [displayQR_eq_ok db qid te adm now q hf hc hexp] at hres
            simp at hres
      · intro hall
        exact absurd hp (hall q hm)
  · intro q hf
    refine ⟨?_, ?_, ?_⟩
    · intro hc
      exact displayQR_eq_forbidden db qid te adm now q hf hc
    · intro hown hexp
      refine displayQR_eq_expired db qid te adm now q hf ?_ hexp
      rintro ⟨hne, hfa⟩
      cases hown with
      | inl h => exact hne h
      | inr h => rw [h] at hfa; cases hfa
    · intro hown hfresh
      refine displayQR_eq_ok db qid te adm now q hf ?_ (not_lt.mpr hfresh)
      rintro ⟨hne, hfa⟩
      cases hown with
      | inl h => exact hne h
      | inr h => rw [h] at hfa; cases hfa

/-- Witness for C7: teacher `4` did not generate QR code `5` of `dbQR` and is
not an admin, so the display route answers `forbidden`. -/
theorem displayQR_checks_witness : displayQR dbQR 5 4 false 800 = .forbidden :=
  ((displayQR_checks dbQR 5 4 false 800).2 ⟨5, 0, 10, 3⟩ (by decide)).1 (by decide)

/-- Claim C8: timetable deletion returns `notFound` and leaves the store
unchanged when no entry has the id, `forbidden` and leaves the store unchanged
when the requester is neither the owning teacher nor an admin, and otherwise
deletes exactly the entries carrying that id, keeping every other entry. -/
theorem deleteTimetable_owner_or_admin (db : DB) (tid te : Nat) (adm : Bool) :
    ((∀ u ∈ db.timetable, u.timetableId ≠ tid) →
      deleteTimetable db tid te adm = (.notFound, db)) ∧
    (∀ t0 : TimetableEntry,
      db.timetable.find? (fun u => decide (u.timetableId = tid)) = some t0 →
      ((t0.teacherEmail ≠ te ∧ adm = false) →
        deleteTimetable db tid te adm = (.forbidden, db)) ∧
      ((t0.teacherEmail = te ∨ adm = true) →
        (deleteTimetable db tid te adm).1 = .deleted ∧
        (deleteTimetable db tid te adm).2.timetable =
          db.timetable.filter (fun u => decide (u.timetableId ≠ tid)) ∧
        (∀ u ∈ db.timetable, u.timetableId ≠ tid →
          u ∈ (deleteTimetable db tid te adm).2.timetable) ∧
        (∀ u ∈ (deleteTimetable db tid te adm).2.timetable, u.timetableId ≠ tid))) := by
  constructor
  · intro hall
    apply deleteTimetable_eq_notFound
    rw [List.find?_eq_none]
    intro x hx
    simp only [decide_eq_true_eq]
    exact hall x hx
  · intro t0 hf
    constructor
    · intro hc
      exact deleteTimetable_eq_forbidden db tid te adm t0 hf hc
    · intro hown
      have hc : ¬ (t0.teacherEmail ≠ te ∧ adm = false) := by
        rintro ⟨hne, hfa⟩
        cases hown with
        | inl h => exact hne h
        | inr h => rw [h] at hfa; cases hfa
      rw [deleteTimetable_eq_deleted db tid te adm t0 hf hc]
      refine ⟨rfl, rfl, ?_, ?_⟩
      · intro u hu hne
        exact List.mem_filter.mpr ⟨hu, by simpa using hne⟩
      · intro u hu
        have h2 := (List.mem_filter.mp hu).2
        simpa using h2

/-- Witness for C8: teacher `4` neither owns entry `1` of `dbSlot` nor is an
admin, so deletion is refused with `forbidden` and the store is unchanged. -/
theorem deleteTimetable_owner_or_admin_witness :
    deleteTimetable dbSlot 1 4 false = (.forbidden, dbSlot) :=
  ((deleteTimetable_owner_or_admin dbSlot 1 4 false).2
    ⟨1, 10, 0, 2, .monday, 0, 100, 5⟩ (by decide)).1 (by decide)

/-- Claim C9: every row of the student attendance summary and of the per-course
report has `percentage = attended / total * 100` when `total > 0` and
`percentage = 0` when `total = 0` — never a division by zero. -/
theorem attendance_percentage_safe (db : DB) (prn courseId : Nat) :
    (∀ row ∈ myAttendance db prn,
      (row.total = 0 → row.percentage = 0) ∧
      (0 < row.total → row.percentage = (row.attended : ℚ) / (row.total : ℚ) * 100)) ∧
    (∀ row ∈ courseReport db courseId,
      (row.total = 0 → row.percentage = 0) ∧
      (0 < row.total → row.percentage = (row.attended : ℚ) / (row.total : ℚ) * 100)) := by
  constructor
  · intro row hrow
    unfold myAttendance at hrow
    obtain ⟨c2, hc2, rfl⟩ := List.mem_map.mp hrow
    constructor
    · intro h0
      have h0 : totalClassesHeld db c2 = 0 := h0
      show attendancePercentage (classesAttended db prn c2) (totalClassesHeld db c2) = 0
      rw [h0]
      exact attendancePercentage_zero _
    · intro hpos
      exact attendancePercentage_pos _ _ hpos
  · intro row hrow
    unfold courseReport at hrow
    obtain ⟨s2, hs2, rfl⟩ := List.mem_map.mp hrow
    constructor
    · intro h0
      have h0 : totalClassesHeld db courseId = 0 := h0
      show attendancePercentage (classesAttended db s2 courseId)
        (totalClassesHeld db courseId) = 0
      rw [h0]
      exact attendancePercentage_zero _
    · intro hpos
      exact attendancePercentage_pos _ _ hpos

/-- Witness for C9: the single summary row of student `7` in `dbQR` (one QR
code held, none attended) satisfies the percentage formula. -/
theorem attendance_percentage_safe_witness :
    (⟨10, 1, 0, attendancePercentage 0 1⟩ : SummaryRow).percentage =
      (((⟨10, 1, 0, attendancePercentage 0 1⟩ : SummaryRow).attended : ℚ) /
        ((⟨10, 1, 0, attendancePercentage 0 1⟩ : SummaryRow).total : ℚ)) * 100 :=
  ((attendance_percentage_safe dbQR 7 10).1 ⟨10, 1, 0, attendancePercentage 0 1⟩
    (by
      have h : myAttendance dbQR 7 = [⟨10, 1, 0, attendancePercentage 0 1⟩] := rfl
      rw [h]
      exact List.mem_singleton.mpr rfl)).2 (by decide)

/-- Claim C10: whenever `markAttendance` fails with `invalidOrExpired`,
`notEnrolled` or `alreadyMarked`, the database — in particular the attendance
ledger — is exactly as before the call: every check precedes the single
insert. -/
theorem markAttendance_atomic_on_failure (db : DB) (prn qid : Nat) (now : Int)
    (aid : Nat) (r : MarkResult) (db2 : DB)
    (h : markAttendance db prn qid now aid = (r, db2))
    (hr : r = .invalidOrExpired ∨ r = .notEnrolled ∨ r = .alreadyMarked) :
    db2 = db := by
  have hne : (markAttendance db prn qid now aid).1 ≠ .marked := by
    rw [h]
    rcases hr with h1 | h1 | h1 <;> rw [h1] <;> simp
  have h2 := markAttendance_failure_unchanged db prn qid now aid hne
  rw [h] at h2
  exact h2

/-- Witness for C10: scanning the unknown QR id `99` in `dbQR` fails with
`invalidOrExpired` and leaves the database unchanged. -/
theorem markAttendance_atomic_on_failure_witness :
    (markAttendance dbQR 7 99 0 50).2 = dbQR :=
  markAttendance_atomic_on_failure dbQR 7 99 0 50 .invalidOrExpired
    (markAttendance dbQR 7 99 0 50).2 (by decide) (Or.inl rfl)

end QRAttend
